import Mathlib

/-!
Verification of the message delivery and history subsystem of the WhyHot chat
server (`src/server/server.js`).  The socket.io handlers `join`, `getMessages`
and `sendMessage` are shallowly embedded as pure Lean functions over an
explicit connection list and database state; asynchronous persistence results
are passed in as explicit success/failure flags, so that the control flow of
each callback is represented by the corresponding branch of the function.
-/

namespace WhyHot

/-- A JavaScript value for string-valued payload fields: such a field may be
absent from the payload (destructuring yields `undefined`), explicitly `null`,
or a string.  `undefined`, `null` and the empty string are all falsy, which is
what the server's `text || ''`, `receiver_username || null` and
`!receiver_username` expressions test. -/
inductive JStr where
  | undef
  | null
  | str (s : String)
deriving DecidableEq, Repr

/-- JavaScript truthiness test for a `JStr` value: `undefined`, `null` and
the empty string are falsy. -/
def JStr.falsy : JStr → Bool
  | .undef => true
  | .null => true
  | .str s => s == ""

/-- The server's `text || ''`: a falsy text becomes the empty string. -/
def JStr.orEmpty : JStr → String
  | .str s => s
  | _ => ""

/-- The server's `receiver_username || null`: a falsy receiver is stored as
SQL NULL, a truthy receiver as its string. -/
def JStr.orNull : JStr → Option String
  | .str s => if s == "" then none else some s
  | _ => none

/-- The room name a truthy receiver denotes; dispatch only consults this in
the truthy branch, where the value is `str s` with `s ≠ ""`. -/
def JStr.asRoom : JStr → String
  | .str s => s
  | _ => ""

/-- How a nullable SQL text column surfaces to a client: NULL as JSON null,
a string as itself. -/
def JStr.ofColumn : Option String → JStr
  | none => .null
  | some s => .str s

/-- A live transport connection (a socket.io socket).  The socket exists from
the transport-level `connection` event on; `rooms` is the set of rooms it has
joined via `socket.join`, and `username` records the `socket.username`
assignment performed by the `join` handler (none before any join). -/
structure Conn where
  id : Nat
  rooms : List String
  username : Option String
deriving DecidableEq, Repr

/-- socket.io `socket.join(room)`: adds the socket to the room; membership in
previously joined rooms is kept. -/
def joinRoom (rooms : List String) (r : String) : List String :=
  if r ∈ rooms then rooms else rooms ++ [r]

/-- The `join` event handler (server.js lines 262-265): `socket.join(username)`
followed by `socket.username = username`, applied to the socket with the given
id. -/
def join (conns : List Conn) (cid : Nat) (u : String) : List Conn :=
  conns.map fun c =>
    if c.id = cid then { c with rooms := joinRoom c.rooms u, username := some u } else c

/-- A row of the `messages` table.  The `text` column is nullable in the
schema (`text TEXT`), hence `Option String`; `receiver_username` is NULL for
global messages. -/
structure Row where
  id : Nat
  text : Option String
  sender_username : String
  receiver_username : Option String
  timestamp : String
  type : String
  file_url : Option String
deriving DecidableEq, Repr

/-- The `messages` table together with its SERIAL id sequence. -/
structure DB where
  rows : List Row
  nextId : Nat
deriving DecidableEq, Repr

/-- Well-formedness of a database state: row ids are strictly increasing in
storage order and below the sequence counter.  This holds for the empty
database and is preserved by every insert, and makes the plain row order agree
with `ORDER BY id ASC`. -/
def DB.WF (db : DB) : Prop :=
  db.rows.Pairwise (fun r₁ r₂ => r₁.id < r₂.id) ∧ ∀ r ∈ db.rows, r.id < db.nextId

/-- The inbound `sendMessage` payload as destructured on server.js line 285:
`text` and `receiver_username` may be absent, null or strings; `type` defaults
to `'text'` and `file_url` to `null` when absent.  A client-supplied
`timestamp` field may be present; the handler never reads it. -/
structure Payload where
  text : JStr
  sender_username : String
  receiver_username : JStr
  timestamp : JStr
  type : Option String
  file_url : Option String
deriving DecidableEq, Repr

/-- The `newMessage` object built on server.js lines 294-302 and emitted as
the `receiveMessage` event: the generated id, the original payload fields
(`text` and `receiver_username` not normalized), and the server timestamp. -/
structure MsgRecord where
  id : Nat
  text : JStr
  sender_username : String
  receiver_username : JStr
  timestamp : String
  type : String
  file_url : Option String
deriving DecidableEq, Repr

/-- An event emitted to a socket: either a `receiveMessage` dispatch or a
`history` response. -/
inductive Event where
  | receiveMessage (m : MsgRecord)
  | history (rows : List Row)
deriving DecidableEq, Repr

/-- Two-digit zero padding, as produced by `toLocaleTimeString` with
2-digit hour and minute options. -/
def pad2 (n : Nat) : String :=
  if n < 10 then "0" ++ toString n else toString n

/-- The server-side timestamp `new Date().toLocaleTimeString([], { hour:
'2-digit', minute: '2-digit' })` computed at acceptance time (server.js line
286), as a function of the wall clock's hour and minute. -/
def formatHM (h m : Nat) : String :=
  pad2 h ++ ":" ++ pad2 m

/-- The row inserted by the `INSERT INTO messages` statement (server.js lines
288-291): text normalized by `text || ''`, receiver by
`receiver_username || null`, type defaulted, id drawn from the sequence. -/
def storedRow (db : DB) (h m : Nat) (p : Payload) : Row :=
  { id := db.nextId
    text := some p.text.orEmpty
    sender_username := p.sender_username
    receiver_username := p.receiver_username.orNull
    timestamp := formatHM h m
    type := p.type.getD "text"
    file_url := p.file_url }

/-- The `newMessage` record dispatched on success (server.js lines 294-302):
the generated id, the payload's original `text` and `receiver_username`
values, and the computed timestamp. -/
def dispatchRecord (db : DB) (h m : Nat) (p : Payload) : MsgRecord :=
  { id := db.nextId
    text := p.text
    sender_username := p.sender_username
    receiver_username := p.receiver_username
    timestamp := formatHM h m
    type := p.type.getD "text"
    file_url := p.file_url }

/-- The outcome of one `sendMessage` handler invocation: the database after
the insert attempt, the socket emissions, and the server-side log. -/
structure SendResult where
  db : DB
  emits : List (Nat × Event)
  log : List String
deriving DecidableEq, Repr

/-- The `sendMessage` event handler (server.js lines 284-310).  `h`/`m` are
the server clock at acceptance; `insertOk` is the persistence outcome the
insert callback observes.  On failure the callback is
`return console.error(err)`: the database is unchanged, nothing is emitted,
the error is logged.  On success the row is appended, and `newMessage` is
emitted to every connected socket (`io.emit`) when the receiver is falsy,
otherwise to the union of the receiver's and the sender's rooms
(`io.to(receiver).to(sender).emit`). -/
def sendMessage (conns : List Conn) (db : DB) (h m : Nat) (p : Payload)
    (insertOk : Bool) : SendResult :=
  if insertOk then
    let targets :=
      if p.receiver_username.falsy then conns
      else conns.filter fun c =>
        c.rooms.contains p.receiver_username.asRoom || c.rooms.contains p.sender_username
    { db := { rows := db.rows ++ [storedRow db h m p], nextId := db.nextId + 1 }
      emits := targets.map fun c => (c.id, Event.receiveMessage (dispatchRecord db h m p))
      log := [] }
  else
    { db := db, emits := [], log := ["insert error"] }

/-- The inbound `getMessages` payload `{ type, mate, me }` (server.js line
267). -/
structure HistReq where
  type : String
  mate : String
  me : String
deriving DecidableEq, Repr

/-- The rows selected by the `getMessages` SQL (server.js lines 268-278):
global scope selects `receiver_username IS NULL`; any other type selects
`(sender = me ∧ receiver = mate) ∨ (sender = mate ∧ receiver = me)`, both
`ORDER BY id ASC` (the plain row order, under `DB.WF`). -/
def historyQuery (db : DB) (r : HistReq) : List Row :=
  if r.type = "global" then
    db.rows.filter fun row => row.receiver_username == none
  else
    db.rows.filter fun row =>
      (row.sender_username == r.me && row.receiver_username == some r.mate)
      || (row.sender_username == r.mate && row.receiver_username == some r.me)

/-- The `getMessages` event handler (server.js lines 267-282): on query
success the rows are emitted as a `history` event to the requesting socket
only (`socket.emit`); on failure (`if (!err)` guard) nothing is emitted. -/
def getMessages (db : DB) (requester : Nat) (r : HistReq) (queryOk : Bool) :
    List (Nat × Event) :=
  if queryOk then [(requester, Event.history (historyQuery db r))] else []

/-- A room just joined is among the socket's rooms. -/
theorem mem_joinRoom_self (l : List String) (r : String) : r ∈ joinRoom l r := by
  unfold joinRoom
  split
  · assumption
  · exact List.mem_append_right _ (List.mem_singleton.mpr rfl)

/-- Joining a room keeps membership in previously joined rooms. -/
theorem mem_joinRoom_of_mem (l : List String) (r a : String) (h : a ∈ l) :
    a ∈ joinRoom l r := by
  unfold joinRoom
  split
  · exact h
  · exact List.mem_append_left _ h

/-- Every insert preserves database well-formedness: the new row's id is the
sequence value, larger than every stored id, so the reachable states of the
store all satisfy `DB.WF`. -/
theorem sendMessage_WF (conns : List Conn) (db : DB) (h m : Nat) (p : Payload)
    (ok : Bool) (hwf : db.WF) : (sendMessage conns db h m p ok).db.WF := by
  cases ok with
  | false => exact hwf
  | true =>
    obtain ⟨hpw, hlt⟩ := hwf
    constructor
    · refine List.pairwise_append.mpr ⟨hpw, List.pairwise_singleton _ _, ?_⟩
      intro r₁ h₁ r₂ h₂
      rw [List.mem_singleton] at h₂
      subst h₂
      exact hlt r₁ h₁
    · intro r hr
      rcases List.mem_append.mp hr with hr | hr
      · exact Nat.lt_succ_of_lt (hlt r hr)
      · rw [List.mem_singleton] at hr
        subst hr
        exact Nat.lt_succ_self _

/-- C2 counterexample: a socket can be open without ever having joined
(`username = none`, no rooms), and a broadcast `sendMessage` is still
dispatched to it by `io.emit`, so the delivered-to set is not the set of
connections associated with a username by an explicit join (which here is
empty). -/
theorem C2_counterexample :
    ((sendMessage [⟨3, [], none⟩] ⟨[], 1⟩ 12 0
        { text := .str "yo", sender_username := "alice", receiver_username := .undef,
          timestamp := .undef, type := none, file_url := none } true).emits.map
      Prod.fst = [3])
    ∧ ([(⟨3, [], none⟩ : Conn)].filter fun c => c.username.isSome) = [] := by
  decide

/-- C2 amended: for every `sendMessage` whose payload has no receiver and
whose persistence succeeds, the message is dispatched to exactly the set of
all currently open connections at dispatch time, whether or not they have
been associated with a username by a join. -/
theorem C2_broadcast_dispatch (conns : List Conn) (db : DB) (h m : Nat)
    (p : Payload) (hr : p.receiver_username = JStr.undef) :
    (sendMessage conns db h m p true).emits =
      conns.map fun c => (c.id, Event.receiveMessage (dispatchRecord db h m p)) := by
  simp [sendMessage, hr, JStr.falsy]

/-- C2 witness: with one joined socket and one never-joined socket, a
broadcast reaches both. -/
theorem C2_broadcast_dispatch_witness :
    (sendMessage [⟨1, ["alice"], some "alice"⟩, ⟨3, [], none⟩] ⟨[], 1⟩ 9 5
        { text := .str "yo", sender_username := "alice", receiver_username := .undef,
          timestamp := .undef, type := none, file_url := none } true).emits =
      ([⟨1, ["alice"], some "alice"⟩, ⟨3, [], none⟩] : List Conn).map fun c =>
        (c.id, Event.receiveMessage (dispatchRecord ⟨[], 1⟩ 9 5
          { text := .str "yo", sender_username := "alice", receiver_username := .undef,
            timestamp := .undef, type := none, file_url := none })) :=
  C2_broadcast_dispatch _ _ _ _ _ rfl

/-- C3: when the persistence insert fails, the `sendMessage` handler leaves
the database unchanged, emits no event to any connection (in particular no
error event to the sender), and logs the failure; consequently every
subsequent history load returns exactly what it would have returned without
the call, so the message never appears in any history. -/
theorem C3_insert_failure_silent (conns : List Conn) (db : DB) (h m : Nat)
    (p : Payload) :
    sendMessage conns db h m p false = { db := db, emits := [], log := ["insert error"] }
    ∧ ∀ (requester : Nat) (req : HistReq) (qok : Bool),
        getMessages (sendMessage conns db h m p false).db requester req qok =
          getMessages db requester req qok :=
  ⟨rfl, fun _ _ _ => rfl⟩

/-- C7: the timestamp stored and dispatched is computed server-side from the
clock at acceptance time in hour:minute format; a client-supplied payload
timestamp is ignored (the handler's result does not depend on it); and the
dispatched record is exactly the generated identifier, the payload's input
fields (with `type` defaulted to `text` and `file_url` to null when absent),
and the computed timestamp. -/
theorem C7_server_timestamp (conns : List Conn) (db : DB) (h m : Nat)
    (p : Payload) (ok : Bool) (ts : JStr) :
    sendMessage conns db h m { p with timestamp := ts } ok = sendMessage conns db h m p ok
    ∧ (storedRow db h m p).timestamp = formatHM h m
    ∧ dispatchRecord db h m p =
        { id := db.nextId, text := p.text, sender_username := p.sender_username,
          receiver_username := p.receiver_username, timestamp := formatHM h m,
          type := p.type.getD "text", file_url := p.file_url }
    ∧ ((sendMessage conns db h m p ok).emits.all fun te =>
        te.2 == Event.receiveMessage (dispatchRecord db h m p)) = true := by
  refine ⟨by cases ok <;> rfl, rfl, rfl, ?_⟩
  cases ok with
  | false => rfl
  | true =>
    simp only [sendMessage, if_true, List.all_eq_true, beq_iff_eq]
    intro te hte
    rw [List.mem_map] at hte
    obtain ⟨a, -, ha⟩ := hte
    rw [← ha]

/-- C8: a history request whose persistence query fails produces no emission
at all: the `if (!err)` guard means no `history` response and no error event
reaches the requesting connection. -/
theorem C8_history_failure_silent (db : DB) (requester : Nat) (req : HistReq) :
    getMessages db requester req false = [] :=
  rfl

/-- C1 counterexample: a payload whose `receiver_username` is the non-null
empty string is treated as receiverless by the `!receiver_username` test and
broadcast to every connection: carol (id 2), who is in neither the sender's
room nor the receiver's room, receives the dispatch, while the union of the
two rooms contains only connection 1. -/
theorem C1_counterexample :
    ((sendMessage [⟨1, ["alice"], some "alice"⟩, ⟨2, ["carol"], some "carol"⟩] ⟨[], 1⟩ 12 0
        { text := .str "hi", sender_username := "alice", receiver_username := .str "",
          timestamp := .undef, type := none, file_url := none } true).emits.map
      Prod.fst = [1, 2])
    ∧ ((([⟨1, ["alice"], some "alice"⟩, ⟨2, ["carol"], some "carol"⟩] : List Conn).filter
        fun c => c.rooms.contains "" || c.rooms.contains "alice").map Conn.id = [1])
    ∧ (JStr.str "" ≠ JStr.null) := by
  decide

/-- C1 amended: for every `sendMessage` whose payload has a truthy (non-null
and non-empty) receiver and whose persistence succeeds, the dispatched-to
connections are exactly those in the union of the receiver's room and the
sender's room, each receiving the canonical record once; a non-null but empty
receiver string is instead treated as absent and broadcast. -/
theorem C1_direct_dispatch (conns : List Conn) (db : DB) (h m : Nat)
    (p : Payload) (s : String) (hr : p.receiver_username = JStr.str s)
    (hs : s ≠ "") :
    (sendMessage conns db h m p true).emits =
      (conns.filter fun c => c.rooms.contains s || c.rooms.contains p.sender_username).map
        fun c => (c.id, Event.receiveMessage (dispatchRecord db h m p)) := by
  simp [sendMessage, hr, JStr.falsy, JStr.asRoom, hs]

/-- C1 witness: a direct message from alice to bob reaches exactly the
sockets in rooms alice and bob, not carol's socket. -/
theorem C1_direct_dispatch_witness :
    (sendMessage [⟨1, ["alice"], some "alice"⟩, ⟨2, ["bob"], some "bob"⟩,
        ⟨5, ["carol"], some "carol"⟩] ⟨[], 1⟩ 12 0
      { text := .str "hi", sender_username := "alice", receiver_username := .str "bob",
        timestamp := .undef, type := none, file_url := none } true).emits =
      (([⟨1, ["alice"], some "alice"⟩, ⟨2, ["bob"], some "bob"⟩,
          ⟨5, ["carol"], some "carol"⟩] : List Conn).filter
        fun c => c.rooms.contains "bob" || c.rooms.contains "alice").map
          fun c => (c.id, Event.receiveMessage (dispatchRecord ⟨[], 1⟩ 12 0
            { text := .str "hi", sender_username := "alice",
              receiver_username := .str "bob", timestamp := .undef, type := none,
              file_url := none })) :=
  C1_direct_dispatch _ _ _ _ _ "bob" rfl (by decide)

/-- C4: an emission from the `sendMessage` handler happens only on the
success branch of the insert callback: whenever any connection is dispatched
to, the insert succeeded, the row is already appended to the store in the
resulting state, the dispatched event is the canonical record, and its
identifier is the one the insert generated — delivered implies persisted,
never the reverse. -/
theorem C4_delivery_implies_persisted (conns : List Conn) (db : DB) (h m : Nat)
    (p : Payload) (ok : Bool) (t : Nat) (e : Event)
    (hmem : (t, e) ∈ (sendMessage conns db h m p ok).emits) :
    ok = true
    ∧ (sendMessage conns db h m p ok).db.rows = db.rows ++ [storedRow db h m p]
    ∧ e = Event.receiveMessage (dispatchRecord db h m p)
    ∧ (storedRow db h m p).id = (dispatchRecord db h m p).id := by
  cases ok with
  | false => simp [sendMessage] at hmem
  | true =>
    refine ⟨rfl, rfl, ?_, rfl⟩
    simp only [sendMessage, if_true] at hmem
    rw [List.mem_map] at hmem
    obtain ⟨a, -, ha⟩ := hmem
    exact ((Prod.mk.injEq _ _ _ _).mp ha).2.symm

/-- C4 witness: a concrete dispatched event, shown to come with a persisted
row. -/
theorem C4_delivery_implies_persisted_witness :
    ((1, Event.receiveMessage (dispatchRecord ⟨[], 1⟩ 9 5
        { text := .str "yo", sender_username := "alice", receiver_username := .undef,
          timestamp := .undef, type := none, file_url := none })) ∈
      (sendMessage [⟨1, [], none⟩] ⟨[], 1⟩ 9 5
        { text := .str "yo", sender_username := "alice", receiver_username := .undef,
          timestamp := .undef, type := none, file_url := none } true).emits)
    ∧ (true = true
      ∧ (sendMessage [⟨1, [], none⟩] ⟨[], 1⟩ 9 5
          { text := .str "yo", sender_username := "alice", receiver_username := .undef,
            timestamp := .undef, type := none, file_url := none } true).db.rows =
        [] ++ [storedRow ⟨[], 1⟩ 9 5
          { text := .str "yo", sender_username := "alice", receiver_username := .undef,
            timestamp := .undef, type := none, file_url := none }]
      ∧ Event.receiveMessage (dispatchRecord ⟨[], 1⟩ 9 5
          { text := .str "yo", sender_username := "alice", receiver_username := .undef,
            timestamp := .undef, type := none, file_url := none }) =
        Event.receiveMessage (dispatchRecord ⟨[], 1⟩ 9 5
          { text := .str "yo", sender_username := "alice", receiver_username := .undef,
            timestamp := .undef, type := none, file_url := none })
      ∧ (storedRow ⟨[], 1⟩ 9 5
          { text := .str "yo", sender_username := "alice", receiver_username := .undef,
            timestamp := .undef, type := none, file_url := none }).id =
        (dispatchRecord ⟨[], 1⟩ 9 5
          { text := .str "yo", sender_username := "alice", receiver_username := .undef,
            timestamp := .undef, type := none, file_url := none }).id) :=
  ⟨by decide, C4_delivery_implies_persisted [⟨1, [], none⟩] ⟨[], 1⟩ 9 5
    { text := .str "yo", sender_username := "alice", receiver_username := .undef,
      timestamp := .undef, type := none, file_url := none } true 1
    (Event.receiveMessage (dispatchRecord ⟨[], 1⟩ 9 5
      { text := .str "yo", sender_username := "alice", receiver_username := .undef,
        timestamp := .undef, type := none, file_url := none })) (by decide)⟩

/-- C5: a direct-scope history request with `me = a` and `mate = b` selects
exactly the stored rows with `(sender = a ∧ receiver = b) ∨ (sender = b ∧
receiver = a)`, in ascending id order (given the store invariant `DB.WF`),
and on query success the rows are emitted solely to the requesting
connection. -/
theorem C5_direct_history (db : DB) (req : HistReq) (requester : Nat)
    (hty : req.type ≠ "global") (hwf : db.WF) :
    (∀ row : Row, row ∈ historyQuery db req ↔ row ∈ db.rows ∧
        ((row.sender_username = req.me ∧ row.receiver_username = some req.mate)
          ∨ (row.sender_username = req.mate ∧ row.receiver_username = some req.me)))
    ∧ (historyQuery db req).Pairwise (fun r₁ r₂ => r₁.id < r₂.id)
    ∧ getMessages db requester req true =
        [(requester, Event.history (historyQuery db req))] := by
  refine ⟨?_, ?_, rfl⟩
  · intro row
    unfold historyQuery
    rw [if_neg hty, List.mem_filter]
    simp [Bool.or_eq_true, Bool.and_eq_true, beq_iff_eq]
  · unfold historyQuery
    rw [if_neg hty]
    exact hwf.1.sublist (List.filter_sublist _)

/-- C5 witness: a two-row store with one alice→bob direct message and one
global message; the direct history for (alice, bob) is delivered to the one
requesting connection. -/
theorem C5_direct_history_witness :
    ((⟨"direct", "bob", "alice"⟩ : HistReq).type ≠ "global")
    ∧ (DB.WF ⟨[⟨1, some "x", "alice", some "bob", "09:00", "text", none⟩,
        ⟨2, some "g", "carol", none, "09:01", "text", none⟩], 3⟩)
    ∧ getMessages ⟨[⟨1, some "x", "alice", some "bob", "09:00", "text", none⟩,
        ⟨2, some "g", "carol", none, "09:01", "text", none⟩], 3⟩ 7
        ⟨"direct", "bob", "alice"⟩ true =
      [(7, Event.history (historyQuery ⟨[⟨1, some "x", "alice", some "bob", "09:00", "text", none⟩,
        ⟨2, some "g", "carol", none, "09:01", "text", none⟩], 3⟩ ⟨"direct", "bob", "alice"⟩))] :=
  ⟨by decide, ⟨by simp, by decide⟩,
    (C5_direct_history ⟨[⟨1, some "x", "alice", some "bob", "09:00", "text", none⟩,
        ⟨2, some "g", "carol", none, "09:01", "text", none⟩], 3⟩ ⟨"direct", "bob", "alice"⟩ 7
      (by decide) ⟨by simp, by decide⟩).2.2⟩

/-- C6: every row returned by a history query has a null receiver exactly
when the query was global scope — so a message with a receiver never appears
in global-scope history, and a message without one never appears in
direct-scope history, for any pair of usernames. -/
theorem C6_partition (db : DB) (row : Row) (req : HistReq)
    (hmem : row ∈ historyQuery db req) :
    row.receiver_username.isNone = (req.type == "global") := by
  unfold historyQuery at hmem
  by_cases hty : req.type = "global"
  · rw [if_pos hty, List.mem_filter] at hmem
    have h2 := hmem.2
    simp only [beq_iff_eq] at h2
    simp [h2, hty]
  · rw [if_neg hty, List.mem_filter] at hmem
    have h2 := hmem.2
    simp only [Bool.or_eq_true, Bool.and_eq_true, beq_iff_eq] at h2
    rcases h2 with ⟨-, h2⟩ | ⟨-, h2⟩ <;> simp [h2, hty]

/-- C6 witness: a direct-history row, shown to carry a non-null receiver. -/
theorem C6_partition_witness :
    ((⟨1, some "x", "alice", some "bob", "09:00", "text", none⟩ : Row) ∈
      historyQuery ⟨[⟨1, some "x", "alice", some "bob", "09:00", "text", none⟩], 2⟩
        ⟨"direct", "bob", "alice"⟩)
    ∧ (⟨1, some "x", "alice", some "bob", "09:00", "text", none⟩ : Row).receiver_username.isNone =
        ((⟨"direct", "bob", "alice"⟩ : HistReq).type == "global") :=
  ⟨by decide, C6_partition ⟨[⟨1, some "x", "alice", some "bob", "09:00", "text", none⟩], 2⟩
    ⟨1, some "x", "alice", some "bob", "09:00", "text", none⟩
    ⟨"direct", "bob", "alice"⟩ (by decide)⟩

/-- C9: `socket.join` adds a room without leaving the previous one, so a
connection that joins as `u` and then as `v` stays registered under both: any
successfully persisted direct message whose sender or receiver is `u`, and
likewise one whose sender or receiver is `v`, is dispatched to that
connection. -/
theorem C9_double_join_delivery (conns : List Conn) (c : Conn) (u v : String)
    (db : DB) (h m : Nat) (p : Payload) (hc : c ∈ conns)
    (hdir : p.receiver_username.falsy = false)
    (hmatch : p.sender_username = u ∨ p.receiver_username = JStr.str u
      ∨ p.sender_username = v ∨ p.receiver_username = JStr.str v) :
    (c.id, Event.receiveMessage (dispatchRecord db h m p)) ∈
      (sendMessage (join (join conns c.id u) c.id v) db h m p true).emits := by
  have hc1 : ({ id := c.id, rooms := joinRoom (joinRoom c.rooms u) v, username := some v } : Conn)
      ∈ join (join conns c.id u) c.id v := by
    unfold join
    rw [List.map_map]
    refine List.mem_map.mpr ⟨c, hc, ?_⟩
    simp
  have hroom : p.receiver_username.asRoom ∈ joinRoom (joinRoom c.rooms u) v
      ∨ p.sender_username ∈ joinRoom (joinRoom c.rooms u) v := by
    rcases hmatch with hu | hu | hv | hv
    · exact Or.inr (hu ▸ mem_joinRoom_of_mem _ _ _ (mem_joinRoom_self _ _))
    · refine Or.inl ?_
      rw [hu]
      exact mem_joinRoom_of_mem _ _ _ (mem_joinRoom_self _ _)
    · exact Or.inr (hv ▸ mem_joinRoom_self _ _)
    · refine Or.inl ?_
      rw [hv]
      exact mem_joinRoom_self _ _
  simp only [sendMessage, hdir, Bool.false_eq_true, if_false, if_true]
  refine List.mem_map.mpr ⟨⟨c.id, joinRoom (joinRoom c.rooms u) v, some v⟩, ?_, rfl⟩
  rw [List.mem_filter]
  refine ⟨hc1, ?_⟩
  rw [Bool.or_eq_true]
  rcases hroom with hr | hr
  · exact Or.inl (List.elem_eq_true_of_mem hr)
  · exact Or.inr (List.elem_eq_true_of_mem hr)

/-- C9 witness: a socket that joined as alice and then as bob receives a
direct message addressed to alice. -/
theorem C9_double_join_delivery_witness :
    ((⟨1, [], none⟩ : Conn) ∈ ([⟨1, [], none⟩] : List Conn))
    ∧ (({ text := .str "dm", sender_username := "zed", receiver_username := .str "alice",
          timestamp := .undef, type := none, file_url := none } : Payload).receiver_username.falsy
        = false)
    ∧ ((1, Event.receiveMessage (dispatchRecord ⟨[], 1⟩ 10 0
        { text := .str "dm", sender_username := "zed", receiver_username := .str "alice",
          timestamp := .undef, type := none, file_url := none })) ∈
      (sendMessage (join (join [⟨1, [], none⟩] 1 "alice") 1 "bob") ⟨[], 1⟩ 10 0
        { text := .str "dm", sender_username := "zed", receiver_username := .str "alice",
          timestamp := .undef, type := none, file_url := none } true).emits) :=
  ⟨by decide, by decide,
    C9_double_join_delivery [⟨1, [], none⟩] ⟨1, [], none⟩ "alice" "bob" ⟨[], 1⟩ 10 0
      { text := .str "dm", sender_username := "zed", receiver_username := .str "alice",
        timestamp := .undef, type := none, file_url := none }
      (by decide) (by decide) (Or.inr (Or.inl rfl))⟩

/-- C10 counterexample: a payload whose text is present but null is stored as
the empty string yet dispatched as null, so the persisted and dispatched
texts differ although the payload text is not absent — refuting that they
differ exactly when the text is absent. -/
theorem C10_counterexample :
    (storedRow ⟨[], 1⟩ 12 0
        { text := .null, sender_username := "alice", receiver_username := .str "bob",
          timestamp := .undef, type := none, file_url := none }).text = some ""
    ∧ (dispatchRecord ⟨[], 1⟩ 12 0
        { text := .null, sender_username := "alice", receiver_username := .str "bob",
          timestamp := .undef, type := none, file_url := none }).text = JStr.null
    ∧ ¬(((dispatchRecord ⟨[], 1⟩ 12 0
          { text := .null, sender_username := "alice", receiver_username := .str "bob",
            timestamp := .undef, type := none, file_url := none }).text ≠
        JStr.ofColumn (storedRow ⟨[], 1⟩ 12 0
          { text := .null, sender_username := "alice", receiver_username := .str "bob",
            timestamp := .undef, type := none, file_url := none }).text)
        ↔ ({ text := .null, sender_username := "alice", receiver_username := .str "bob",
              timestamp := .undef, type := none, file_url := none } : Payload).text
          = JStr.undef) := by
  decide

/-- C10 amended: the persisted text column always holds a string (absent,
null and empty texts are all stored as the empty string), the dispatched
record carries the payload's original text unchanged, and the persisted text
and the dispatched text differ exactly when the payload text is absent or
null. -/
theorem C10_text_normalization (db : DB) (h m : Nat) (p : Payload) :
    (storedRow db h m p).text = some p.text.orEmpty
    ∧ (dispatchRecord db h m p).text = p.text
    ∧ (((dispatchRecord db h m p).text ≠ JStr.ofColumn (storedRow db h m p).text)
        ↔ (p.text = JStr.undef ∨ p.text = JStr.null)) := by
  refine ⟨rfl, rfl, ?_⟩
  cases hp : p.text <;>
    simp [storedRow, dispatchRecord, JStr.orEmpty, JStr.ofColumn, hp]

/-- C10 witness: the amended equivalence evaluated at a payload with an
ordinary string text, whose stored and dispatched values agree. -/
theorem C10_text_normalization_witness :
    (storedRow ⟨[], 1⟩ 8 30
        { text := .str "hey", sender_username := "alice", receiver_username := .undef,
          timestamp := .undef, type := none, file_url := none }).text =
      some ({ text := .str "hey", sender_username := "alice", receiver_username := .undef,
              timestamp := .undef, type := none, file_url := none } : Payload).text.orEmpty
    ∧ (dispatchRecord ⟨[], 1⟩ 8 30
        { text := .str "hey", sender_username := "alice", receiver_username := .undef,
          timestamp := .undef, type := none, file_url := none }).text = JStr.str "hey"
    ∧ (((dispatchRecord ⟨[], 1⟩ 8 30
          { text := .str "hey", sender_username := "alice", receiver_username := .undef,
            timestamp := .undef, type := none, file_url := none }).text ≠
        JStr.ofColumn (storedRow ⟨[], 1⟩ 8 30
          { text := .str "hey", sender_username := "alice", receiver_username := .undef,
            timestamp := .undef, type := none, file_url := none }).text)
        ↔ (JStr.str "hey" = JStr.undef ∨ JStr.str "hey" = JStr.null)) :=
  C10_text_normalization ⟨[], 1⟩ 8 30
    { text := .str "hey", sender_username := "alice", receiver_username := .undef,
      timestamp := .undef, type := none, file_url := none }

end WhyHot
